import Mathlib

/-!
Shallow embedding of the Kanbu Graphiti API service
(`apps/graphiti/src/api/main.py` and `apps/graphiti/src/api/schemas.py`).

Instants (Python `datetime`) are modelled as `Int`; relevance scores
(Python `float`, only stored and compared here, never computed with) as `Rat`.
Fallible endpoint handlers return `Except (Nat × String)`, the error carrying
the HTTP status code and detail of the raised `HTTPException`.
-/

namespace Kanbu

/-! ## Temporal search filters (`temporal_search`, main.py)

`DateFilter`, `ComparisonOperator` and `SearchFilters` are the
`graphiti_core.search.search_filters` interface consumed by `temporal_search`;
their evaluation semantics follow the collaborator's documented contract:
inside one filter list the `DateFilter`s are conjoined, the lists themselves
are disjoined, and an empty collection of lists imposes no constraint. -/

inductive ComparisonOperator where
  | less_than_equal
  | greater_than
  | is_null
deriving DecidableEq

structure DateFilter where
  date : Option Int := none
  comparison_operator : ComparisonOperator
deriving DecidableEq

def DateFilter.eval (f : DateFilter) (field : Option Int) : Bool :=
  match f.comparison_operator with
  | .is_null => field.isNone
  | .less_than_equal =>
      match f.date, field with
      | some d, some v => decide (v ≤ d)
      | _, _ => false
  | .greater_than =>
      match f.date, field with
      | some d, some v => decide (d < v)
      | _, _ => false

def evalDateFilterGroups (groups : List (List DateFilter)) (field : Option Int) : Bool :=
  match groups with
  | [] => true
  | _ => groups.any fun g => g.all fun f => f.eval field

structure SearchFilters where
  valid_at : List (List DateFilter) := []
  invalid_at : List (List DateFilter) := []
deriving DecidableEq

/-- The filters built by `temporal_search` (main.py): `valid_at <= as_of` and
(`invalid_at > as_of` or `invalid_at is null`). -/
def temporalSearchFilters (as_of : Int) : SearchFilters where
  valid_at := [[{ date := some as_of, comparison_operator := .less_than_equal }]]
  invalid_at :=
    [[{ date := some as_of, comparison_operator := .greater_than }],
     [{ comparison_operator := .is_null }]]

/-- An entity edge as returned by the graph search: the fields of
`graphiti_core`'s edge objects that the handlers read. `name` is optional
because `hybrid_search` probes it with `hasattr`. -/
structure Edge where
  uuid : String
  name : Option String
  fact : String
  source_node_uuid : String
  target_node_uuid : String
  valid_at : Option Int
  invalid_at : Option Int
deriving DecidableEq

/-- Whether an edge passes the temporal filters `temporal_search` constructs
for cutoff `as_of`. -/
def passesTemporalFilter (e : Edge) (as_of : Int) : Bool :=
  evalDateFilterGroups (temporalSearchFilters as_of).valid_at e.valid_at &&
  evalDateFilterGroups (temporalSearchFilters as_of).invalid_at e.invalid_at

/-! ## Hybrid search (`hybrid_search`, main.py)

`HybridSearchRequest` and `HybridSearchResponse` are declared in
`schemas.py` but absent from the copy at hand; their fields below are exactly
those the `hybrid_search` handler reads and writes. The search-method and
reranker enumerations and the per-class config records mirror
`graphiti_core.search.search_config` as used by the handler. -/

inductive EdgeSearchMethod where
  | bm25
  | cosine_similarity
  | bfs
deriving DecidableEq

inductive NodeSearchMethod where
  | bm25
  | cosine_similarity
  | bfs
deriving DecidableEq

inductive CommunitySearchMethod where
  | bm25
  | cosine_similarity
deriving DecidableEq

inductive EdgeReranker where
  | rrf
  | mmr
  | cross_encoder
deriving DecidableEq

inductive NodeReranker where
  | rrf
  | mmr
  | cross_encoder
deriving DecidableEq

inductive CommunityReranker where
  | rrf
  | mmr
  | cross_encoder
deriving DecidableEq

inductive EpisodeReranker where
  | rrf
deriving DecidableEq

structure EdgeSearchConfig where
  search_methods : List EdgeSearchMethod
  reranker : EdgeReranker
  mmr_lambda : Rat
deriving DecidableEq

structure NodeSearchConfig where
  search_methods : List NodeSearchMethod
  reranker : NodeReranker
  mmr_lambda : Rat
deriving DecidableEq

structure EpisodeSearchConfig where
  reranker : EpisodeReranker
deriving DecidableEq

structure CommunitySearchConfig where
  search_methods : List CommunitySearchMethod
  reranker : CommunityReranker
  mmr_lambda : Rat
deriving DecidableEq

structure SearchConfig where
  edge_config : Option EdgeSearchConfig
  node_config : Option NodeSearchConfig
  episode_config : Option EpisodeSearchConfig
  community_config : Option CommunitySearchConfig
  limit : Int
deriving DecidableEq

structure HybridSearchRequest where
  query : String
  group_id : Option String
  use_bm25 : Bool
  use_vector : Bool
  use_bfs : Bool
  search_edges : Bool
  search_nodes : Bool
  search_episodes : Bool
  search_communities : Bool
  reranker : String
  mmr_lambda : Rat
  limit : Int
deriving DecidableEq

/-- The `edge_methods` list built by `hybrid_search` from the request flags
(appended in source order: bm25, then vector, then bfs). -/
def buildEdgeMethods (r : HybridSearchRequest) : List EdgeSearchMethod :=
  (if r.use_bm25 then [EdgeSearchMethod.bm25] else []) ++
  (if r.use_vector then [EdgeSearchMethod.cosine_similarity] else []) ++
  (if r.use_bfs then [EdgeSearchMethod.bfs] else [])

/-- The `node_methods` list built by `hybrid_search`. -/
def buildNodeMethods (r : HybridSearchRequest) : List NodeSearchMethod :=
  (if r.use_bm25 then [NodeSearchMethod.bm25] else []) ++
  (if r.use_vector then [NodeSearchMethod.cosine_similarity] else []) ++
  (if r.use_bfs then [NodeSearchMethod.bfs] else [])

/-- `edge_reranker_map.get(key, EdgeReranker.rrf)`: the fixed lookup table
with its permissive default. -/
def edge_reranker_map (key : String) : EdgeReranker :=
  if key = "rrf" then .rrf
  else if key = "mmr" then .mmr
  else if key = "cross_encoder" then .cross_encoder
  else if key = "none" then .rrf
  else .rrf

/-- `node_reranker_map.get(key, NodeReranker.rrf)`. -/
def node_reranker_map (key : String) : NodeReranker :=
  if key = "rrf" then .rrf
  else if key = "mmr" then .mmr
  else if key = "cross_encoder" then .cross_encoder
  else if key = "none" then .rrf
  else .rrf

/-- `community_reranker_map.get(key, CommunityReranker.rrf)`. -/
def community_reranker_map (key : String) : CommunityReranker :=
  if key = "rrf" then .rrf
  else if key = "mmr" then .mmr
  else if key = "cross_encoder" then .cross_encoder
  else if key = "none" then .rrf
  else .rrf

/-- The community method list: the two-element literal
`[bm25 if use_bm25 else None, cosine_similarity if use_vector else None]`
followed by the `[m for m in ... if m]` filter. -/
def buildCommunityMethods (r : HybridSearchRequest) : List CommunitySearchMethod :=
  ([if r.use_bm25 then some CommunitySearchMethod.bm25 else none,
    if r.use_vector then some CommunitySearchMethod.cosine_similarity else none]).filterMap id

/-- The `SearchConfig` built by `hybrid_search`: edge and node configs only
when the class is requested and its method list is non-empty (Python
truthiness of the list), episode config whenever episodes are requested,
community config whenever communities are requested. -/
def buildSearchConfig (r : HybridSearchRequest) : SearchConfig where
  edge_config :=
    if r.search_edges && !(buildEdgeMethods r).isEmpty then
      some { search_methods := buildEdgeMethods r,
             reranker := edge_reranker_map r.reranker,
             mmr_lambda := r.mmr_lambda }
    else none
  node_config :=
    if r.search_nodes && !(buildNodeMethods r).isEmpty then
      some { search_methods := buildNodeMethods r,
             reranker := node_reranker_map r.reranker,
             mmr_lambda := r.mmr_lambda }
    else none
  episode_config :=
    if r.search_episodes then some { reranker := EpisodeReranker.rrf } else none
  community_config :=
    if r.search_communities then
      some { search_methods := buildCommunityMethods r,
             reranker := community_reranker_map r.reranker,
             mmr_lambda := r.mmr_lambda }
    else none
  limit := r.limit

/-- The `search_methods_used` echo list, built from the raw request flags. -/
def searchMethodsUsed (r : HybridSearchRequest) : List String :=
  (if r.use_bm25 then ["bm25"] else []) ++
  (if r.use_vector then ["vector"] else []) ++
  (if r.use_bfs then ["bfs"] else [])

/-! ## Result conversion and response assembly (`hybrid_search`, main.py) -/

/-- An entity node as read by the handler. -/
structure Node where
  uuid : String
  name : String
  summary : String
  labels : List String
deriving DecidableEq

/-- An episode as read by the handler. -/
structure Episode where
  uuid : String
  name : String
  content : String
  source : String
  created_at : Option Int
deriving DecidableEq

/-- A community node as read by the handler. -/
structure Community where
  uuid : String
  name : String
  summary : String
deriving DecidableEq

/-- The object returned by `graphiti_core.search.search`: four per-class
result lists with their per-class reranker score lists. -/
structure SearchResults where
  edges : List Edge
  nodes : List Node
  episodes : List Episode
  communities : List Community
  edge_reranker_scores : List Rat
  node_reranker_scores : List Rat
  episode_reranker_scores : List Rat
  community_reranker_scores : List Rat
deriving DecidableEq

inductive ResultType where
  | entity
  | edge
  | episode
deriving DecidableEq

/-- A metadata value: the handler stores strings, lists of strings, and
nulls in a result's metadata dict. -/
inductive MetaValue where
  | null
  | str (s : String)
  | strList (l : List String)
deriving DecidableEq

/-- `d.isoformat() if d else None`. -/
def isoOpt (d : Option Int) : MetaValue :=
  match d with
  | none => .null
  | some t => .str (toString t)

/-- `SearchResult` (schemas.py). -/
structure SearchResult where
  uuid : String
  name : String
  content : String
  score : Rat
  result_type : ResultType
  metadata : List (String × MetaValue)
deriving DecidableEq

/-- `scores[i] if i < len(scores) else 1.0`: the guarded score access used
for every class in `hybrid_search`. -/
def scoreAt (scores : List Rat) (i : Nat) : Rat :=
  if h : i < scores.length then scores.get ⟨i, h⟩ else 1

/-- The edge branch of the conversion loop. -/
def edgeToSearchResult (scores : List Rat) (i : Nat) (e : Edge) : SearchResult where
  uuid := e.uuid
  name := e.name.getD ""
  content := e.fact
  score := scoreAt scores i
  result_type := .edge
  metadata :=
    [("source_node", .str e.source_node_uuid),
     ("target_node", .str e.target_node_uuid),
     ("valid_at", isoOpt e.valid_at),
     ("invalid_at", isoOpt e.invalid_at)]

/-- The node branch: `content = node.summary or node.name`. -/
def nodeToSearchResult (scores : List Rat) (i : Nat) (n : Node) : SearchResult where
  uuid := n.uuid
  name := n.name
  content := if n.summary = "" then n.name else n.summary
  score := scoreAt scores i
  result_type := .entity
  metadata := [("labels", .strList n.labels)]

/-- The episode branch: `content = ep.content[:500] if ep.content else ''`. -/
def episodeToSearchResult (scores : List Rat) (i : Nat) (ep : Episode) : SearchResult where
  uuid := ep.uuid
  name := ep.name
  content := if ep.content = "" then "" else ep.content.take 500
  score := scoreAt scores i
  result_type := .episode
  metadata := [("source", .str ep.source), ("created_at", isoOpt ep.created_at)]

/-- The community branch: `content = comm.summary or comm.name`. -/
def communityToSearchResult (scores : List Rat) (i : Nat) (c : Community) : SearchResult where
  uuid := c.uuid
  name := c.name
  content := if c.summary = "" then c.name else c.summary
  score := scoreAt scores i
  result_type := .entity
  metadata := [("type", .str "community")]

/-- `for i, x in enumerate(xs)` starting at index `i`, collecting `f i x`. -/
def enumMap (f : Nat → α → β) : Nat → List α → List β
  | _, [] => []
  | i, x :: xs => f i x :: enumMap f (i + 1) xs

/-- The `edge_results` list assembled by `hybrid_search`. -/
def edgeResults (res : SearchResults) : List SearchResult :=
  enumMap (edgeToSearchResult res.edge_reranker_scores) 0 res.edges

/-- The `node_results` list. -/
def nodeResults (res : SearchResults) : List SearchResult :=
  enumMap (nodeToSearchResult res.node_reranker_scores) 0 res.nodes

/-- The `episode_results` list. -/
def episodeResults (res : SearchResults) : List SearchResult :=
  enumMap (episodeToSearchResult res.episode_reranker_scores) 0 res.episodes

/-- The `community_results` list. -/
def communityResults (res : SearchResults) : List SearchResult :=
  enumMap (communityToSearchResult res.community_reranker_scores) 0 res.communities

/-- `HybridSearchResponse` (schemas.py): the fields the handler writes. -/
structure HybridSearchResponse where
  edges : List SearchResult
  nodes : List SearchResult
  episodes : List SearchResult
  communities : List SearchResult
  query : String
  search_methods_used : List String
  reranker_used : String
  total_results : Nat
deriving DecidableEq

/-- The response built at the end of `hybrid_search`:
`total = len(edge_results) + len(node_results) + len(episode_results) +
len(community_results)` and `reranker_used = request.reranker`. -/
def assembleHybridResponse (req : HybridSearchRequest) (res : SearchResults) :
    HybridSearchResponse where
  edges := edgeResults res
  nodes := nodeResults res
  episodes := episodeResults res
  communities := communityResults res
  query := req.query
  search_methods_used := searchMethodsUsed req
  reranker_used := req.reranker
  total_results :=
    (edgeResults res).length + (nodeResults res).length +
    (episodeResults res).length + (communityResults res).length

/-- The whole `/search/hybrid` handler body: build the config, call the
external `graphiti_search` (whose outcome the parameter supplies), assemble
the response; the `except Exception` clause turns any raised error into
`HTTPException(status_code=500, detail=str(e))`. -/
def hybridSearchEndpoint (req : HybridSearchRequest)
    (graphitiSearch : SearchConfig → Except String SearchResults) :
    Except (Nat × String) HybridSearchResponse :=
  match graphitiSearch (buildSearchConfig req) with
  | .ok res => .ok (assembleHybridResponse req res)
  | .error e => .error (500, e)

/-! ## Request validation (`schemas.py`)

Pydantic field semantics for `limit: int = Field(default=10, ge=1, le=50)`:
an omitted field takes the default, a supplied value outside the bounds is
rejected with a validation error before the handler runs. -/

def validateBoundedInt (dflt lo hi : Int) (input : Option Int) : Except String Int :=
  match input with
  | none => .ok dflt
  | some l => if lo ≤ l && l ≤ hi then .ok l else .error "validation error"

/-- Validation of `SearchRequest.limit` (default 10, ge 1, le 50). -/
def searchRequestLimit (input : Option Int) : Except String Int :=
  validateBoundedInt 10 1 50 input

/-- Validation of `TemporalQueryRequest.limit` (default 10, ge 1, le 50). -/
def temporalQueryRequestLimit (input : Option Int) : Except String Int :=
  validateBoundedInt 10 1 50 input

/-! ## Graph visualization endpoint (`get_graph`, main.py) -/

structure GetGraphRequest where
  group_id : String
deriving DecidableEq

structure GraphNode where
  id : String
  label : String
  node_type : String
  properties : List (String × MetaValue)
deriving DecidableEq

structure GraphEdge where
  source : String
  target : String
  edge_type : String
  fact : Option String
  valid_at : Option Int
  invalid_at : Option Int
deriving DecidableEq

structure GetGraphResponse where
  nodes : List GraphNode
  edges : List GraphEdge
deriving DecidableEq

/-- The `node_query` Cypher string `get_graph` interpolates. -/
def graphNodeQuery (group_id : String) : String :=
  "MATCH (n) WHERE n.group_id = '" ++ group_id ++ "' RETURN n, labels(n) as labels"

/-- The `edge_query` Cypher string `get_graph` interpolates. -/
def graphEdgeQuery (group_id : String) : String :=
  "MATCH (s)-[r]->(t) WHERE s.group_id = '" ++ group_id ++
  "' RETURN s.uuid as source, t.uuid as target, type(r) as edge_type, " ++
  "r.fact as fact, r.valid_at as valid_at, r.invalid_at as invalid_at"

/-- The `/graph` handler: when the client is obtained it builds the two query
strings but never executes them, returning the initial empty `nodes` and
`edges` lists; a failure to obtain the client raises and is converted to
`HTTPException(500)`. -/
def getGraphEndpoint (clientOk : Bool) (_req : GetGraphRequest) :
    Except (Nat × String) GetGraphResponse :=
  if clientOk then
    .ok { nodes := [], edges := [] }
  else .error (500, "Failed to initialize Graphiti")

/-! ## Concrete inputs used by the closed theorems below -/

/-- A concrete edge with validity window `[3, 7)`. -/
def sampleEdge : Edge where
  uuid := "e1"
  name := none
  fact := "f"
  source_node_uuid := "s"
  target_node_uuid := "t"
  valid_at := some 3
  invalid_at := some 7

/-- A search outcome with no results at all. -/
def emptyResults : SearchResults where
  edges := []
  nodes := []
  episodes := []
  communities := []
  edge_reranker_scores := []
  node_reranker_scores := []
  episode_reranker_scores := []
  community_reranker_scores := []

/-- A search outcome with two edges but a single edge reranker score. -/
def twoEdgeResults : SearchResults where
  edges :=
    [sampleEdge,
     { uuid := "e2", name := some "n2", fact := "g", source_node_uuid := "s2",
       target_node_uuid := "t2", valid_at := none, invalid_at := none }]
  nodes := []
  episodes := []
  communities := []
  edge_reranker_scores := [3/2]
  node_reranker_scores := []
  episode_reranker_scores := []
  community_reranker_scores := []

/-- A request with an unrecognized reranker key. -/
def bogusRerankerRequest : HybridSearchRequest where
  query := "q"
  group_id := none
  use_bm25 := true
  use_vector := false
  use_bfs := false
  search_edges := true
  search_nodes := false
  search_episodes := false
  search_communities := false
  reranker := "bogus"
  mmr_lambda := 1/2
  limit := 10

/-- A request selecting all classes with bm25 and bfs enabled. -/
def allClassesBfsRequest : HybridSearchRequest where
  query := "q"
  group_id := none
  use_bm25 := true
  use_vector := false
  use_bfs := true
  search_edges := true
  search_nodes := true
  search_episodes := true
  search_communities := true
  reranker := "rrf"
  mmr_lambda := 1/2
  limit := 10

/-- A request for the community class only, with bm25 and bfs enabled. -/
def communityOnlyBfsRequest : HybridSearchRequest where
  query := "q"
  group_id := none
  use_bm25 := true
  use_vector := false
  use_bfs := true
  search_edges := false
  search_nodes := false
  search_episodes := false
  search_communities := true
  reranker := "rrf"
  mmr_lambda := 1/2
  limit := 10

/-- A request for communities and episodes with every method flag off. -/
def noMethodsRequest : HybridSearchRequest where
  query := "q"
  group_id := none
  use_bm25 := false
  use_vector := false
  use_bfs := false
  search_edges := true
  search_nodes := true
  search_episodes := true
  search_communities := true
  reranker := "rrf"
  mmr_lambda := 1/2
  limit := 10

/-! ## Helper lemmas -/

lemma length_enumMap (f : Nat → α → β) (i : Nat) (l : List α) :
    (enumMap f i l).length = l.length := by
  induction l generalizing i with
  | nil => rfl
  | cons x xs ih => simp [enumMap, ih]

lemma get_enumMap (f : Nat → α → β) (i j : Nat) (l : List α)
    (hj : j < l.length) :
    (enumMap f i l).get ⟨j, by rw [length_enumMap]; exact hj⟩ =
      f (i + j) (l.get ⟨j, hj⟩) := by
  induction l generalizing i j with
  | nil => exact absurd hj (by simp)
  | cons x xs ih =>
      cases j with
      | zero => simp [enumMap]
      | succ j =>
          have hj' : j < xs.length := by simpa using hj
          have := ih (i + 1) j hj'
          simpa [enumMap, Nat.add_assoc, Nat.add_comm 1 j] using this

lemma passesTemporalFilter_iff (e : Edge) (as_of : Int) :
    passesTemporalFilter e as_of = true ↔
      (∃ vf, e.valid_at = some vf ∧ vf ≤ as_of) ∧
      (e.invalid_at = none ∨ ∃ vt, e.invalid_at = some vt ∧ as_of < vt) := by
  cases hv : e.valid_at with
  | none =>
      cases hi : e.invalid_at <;>
        simp [passesTemporalFilter, temporalSearchFilters, evalDateFilterGroups,
          DateFilter.eval, hv, hi]
  | some vf =>
      cases hi : e.invalid_at with
      | none =>
          simp [passesTemporalFilter, temporalSearchFilters, evalDateFilterGroups,
            DateFilter.eval, hv, hi]
      | some vt =>
          simp [passesTemporalFilter, temporalSearchFilters, evalDateFilterGroups,
            DateFilter.eval, hv, hi]

/-! ## Claim theorems -/

/-- C1: an edge passes the temporal validity filter built for cutoff `as_of`
iff its `valid_at` is present and `≤ as_of` and its `invalid_at` is absent or
strictly greater than `as_of`; in particular `invalid_at = as_of` is excluded
and `valid_at = as_of` (with a passing `invalid_at`) is included
(closed-open interval test). -/
theorem temporal_filter_closed_open (e : Edge) (as_of : Int) :
    (passesTemporalFilter e as_of = true ↔
      (∃ vf, e.valid_at = some vf ∧ vf ≤ as_of) ∧
      (e.invalid_at = none ∨ ∃ vt, e.invalid_at = some vt ∧ as_of < vt)) ∧
    (e.invalid_at = some as_of → passesTemporalFilter e as_of = false) ∧
    (e.valid_at = some as_of →
      (e.invalid_at = none ∨ ∃ vt, e.invalid_at = some vt ∧ as_of < vt) →
      passesTemporalFilter e as_of = true) := by
  refine ⟨passesTemporalFilter_iff e as_of, ?_, ?_⟩
  · intro hvt
    cases h : passesTemporalFilter e as_of with
    | false => rfl
    | true =>
        rcases (passesTemporalFilter_iff e as_of).1 h with ⟨_, hright⟩
        rcases hright with hnone | ⟨vt, hvt2, hlt⟩
        · simp [hvt] at hnone
        · rw [hvt] at hvt2
          injection hvt2 with hh
          omega
  · intro hvf hright
    exact (passesTemporalFilter_iff e as_of).2 ⟨⟨as_of, hvf, le_refl _⟩, hright⟩

/-- Witness for `temporal_filter_closed_open`: the edge with window `[3, 7)`
is excluded at cutoff `7` and included at cutoff `3`. -/
theorem temporal_filter_closed_open_witness :
    passesTemporalFilter sampleEdge 7 = false ∧
    passesTemporalFilter sampleEdge 3 = true :=
  ⟨(temporal_filter_closed_open sampleEdge 7).2.1 rfl,
   (temporal_filter_closed_open sampleEdge 3).2.2 rfl
      (Or.inr ⟨7, rfl, by norm_num⟩)⟩

/-- C2 counterexample: with the unrecognized key `"bogus"` the built edge
config does use ReciprocalRankFusion, but the response's `reranker_used`
echoes the raw string `"bogus"`, not the resolved value `"rrf"`. -/
theorem reranker_echo_counterexample :
    (buildSearchConfig bogusRerankerRequest).edge_config =
      some { search_methods := [EdgeSearchMethod.bm25],
             reranker := EdgeReranker.rrf, mmr_lambda := 1/2 } ∧
    (assembleHybridResponse bogusRerankerRequest emptyResults).reranker_used = "bogus" ∧
    "bogus" ≠ "rrf" :=
  ⟨rfl, rfl, by decide⟩

/-- C2 amended: every key other than `"mmr"` and `"cross_encoder"` resolves
to ReciprocalRankFusion in all three lookup tables, so the search is executed
with RRF, but the response echoes the raw request string in `reranker_used`,
not the resolved value. -/
theorem reranker_fallback_raw_echo (key : String) (req : HybridSearchRequest)
    (res : SearchResults) (h1 : key ≠ "mmr") (h2 : key ≠ "cross_encoder") :
    edge_reranker_map key = EdgeReranker.rrf ∧
    node_reranker_map key = NodeReranker.rrf ∧
    community_reranker_map key = CommunityReranker.rrf ∧
    (assembleHybridResponse req res).reranker_used = req.reranker := by
  refine ⟨?_, ?_, ?_, rfl⟩
  · unfold edge_reranker_map
    split_ifs <;> simp_all
  · unfold node_reranker_map
    split_ifs <;> simp_all
  · unfold community_reranker_map
    split_ifs <;> simp_all

/-- Witness for `reranker_fallback_raw_echo` at the key `"bogus"`. -/
theorem reranker_fallback_raw_echo_witness :
    edge_reranker_map "bogus" = EdgeReranker.rrf ∧
    node_reranker_map "bogus" = NodeReranker.rrf ∧
    community_reranker_map "bogus" = CommunityReranker.rrf ∧
    (assembleHybridResponse bogusRerankerRequest emptyResults).reranker_used =
      bogusRerankerRequest.reranker :=
  reranker_fallback_raw_echo "bogus" bogusRerankerRequest emptyResults
    (by decide) (by decide)

/-- C3 counterexample: when the external search call raises (store failure),
the handler surfaces `HTTPException(500)` to the caller instead of a degraded
response. -/
theorem hybrid_store_failure_counterexample :
    hybridSearchEndpoint allClassesBfsRequest (fun _ => .error "StoreUnavailable") =
      .error (500, "StoreUnavailable") := rfl

/-- C3 amended: the handler has no partial-failure recovery of its own: a
search call that raises is surfaced as an HTTP 500 error with the raised
detail, and only a fully successful search call produces a response. -/
theorem hybrid_endpoint_error_propagation (req : HybridSearchRequest)
    (gs : SearchConfig → Except String SearchResults) :
    (∀ e, gs (buildSearchConfig req) = .error e →
      hybridSearchEndpoint req gs = .error (500, e)) ∧
    (∀ res, gs (buildSearchConfig req) = .ok res →
      hybridSearchEndpoint req gs = .ok (assembleHybridResponse req res)) := by
  constructor <;> intro x hx <;> simp [hybridSearchEndpoint, hx]

/-- Witness for `hybrid_endpoint_error_propagation`: a failing and a
succeeding store call at a concrete request. -/
theorem hybrid_endpoint_error_propagation_witness :
    hybridSearchEndpoint allClassesBfsRequest (fun _ => .error "down") =
      .error (500, "down") ∧
    hybridSearchEndpoint allClassesBfsRequest (fun _ => .ok emptyResults) =
      .ok (assembleHybridResponse allClassesBfsRequest emptyResults) :=
  ⟨(hybrid_endpoint_error_propagation allClassesBfsRequest
      (fun _ => .error "down")).1 "down" rfl,
   (hybrid_endpoint_error_propagation allClassesBfsRequest
      (fun _ => .ok emptyResults)).2 emptyResults rfl⟩

/-- C4: the community plan contains only bm25 (lexical) and
cosine-similarity (vector) methods and is insensitive to the `use_bfs`
traversal flag, while the edge and node plans do include `bfs` whenever the
class is requested with the flag set. -/
theorem community_plan_drops_traversal (req : HybridSearchRequest) :
    (∀ m ∈ buildCommunityMethods req,
      m = CommunitySearchMethod.bm25 ∨ m = CommunitySearchMethod.cosine_similarity) ∧
    (∀ b, buildCommunityMethods { req with use_bfs := b } = buildCommunityMethods req) ∧
    (req.search_communities = true →
      (buildSearchConfig req).community_config =
        some { search_methods := buildCommunityMethods req,
               reranker := community_reranker_map req.reranker,
               mmr_lambda := req.mmr_lambda }) ∧
    (req.search_edges = true → req.use_bfs = true →
      ∃ cfg, (buildSearchConfig req).edge_config = some cfg ∧
        EdgeSearchMethod.bfs ∈ cfg.search_methods) ∧
    (req.search_nodes = true → req.use_bfs = true →
      ∃ cfg, (buildSearchConfig req).node_config = some cfg ∧
        NodeSearchMethod.bfs ∈ cfg.search_methods) := by
  refine ⟨?_, fun b => rfl, ?_, ?_, ?_⟩
  · intro m hm
    cases m with
    | bm25 => exact Or.inl rfl
    | cosine_similarity => exact Or.inr rfl
  · intro h
    simp [buildSearchConfig, h]
  · intro h1 h2
    refine ⟨{ search_methods := buildEdgeMethods req,
              reranker := edge_reranker_map req.reranker,
              mmr_lambda := req.mmr_lambda }, ?_, ?_⟩
    · simp [buildSearchConfig, h1, buildEdgeMethods, h2]
    · simp [buildEdgeMethods, h2]
  · intro h1 h2
    refine ⟨{ search_methods := buildNodeMethods req,
              reranker := node_reranker_map req.reranker,
              mmr_lambda := req.mmr_lambda }, ?_, ?_⟩
    · simp [buildSearchConfig, h1, buildNodeMethods, h2]
    · simp [buildNodeMethods, h2]

/-- Witness for `community_plan_drops_traversal`: all classes requested with
bm25 and bfs enabled; the community plan keeps only bm25 while edge and node
plans contain bfs. -/
theorem community_plan_drops_traversal_witness :
    (buildSearchConfig allClassesBfsRequest).community_config =
      some { search_methods := buildCommunityMethods allClassesBfsRequest,
             reranker := community_reranker_map allClassesBfsRequest.reranker,
             mmr_lambda := allClassesBfsRequest.mmr_lambda } ∧
    (∃ cfg, (buildSearchConfig allClassesBfsRequest).edge_config = some cfg ∧
      EdgeSearchMethod.bfs ∈ cfg.search_methods) ∧
    (∃ cfg, (buildSearchConfig allClassesBfsRequest).node_config = some cfg ∧
      NodeSearchMethod.bfs ∈ cfg.search_methods) :=
  ⟨(community_plan_drops_traversal allClassesBfsRequest).2.2.1 rfl,
   (community_plan_drops_traversal allClassesBfsRequest).2.2.2.1 rfl rfl,
   (community_plan_drops_traversal allClassesBfsRequest).2.2.2.2 rfl rfl⟩

/-- C5 counterexample: only the community class is requested with the
traversal flag set; its (only) built plan contains just bm25, yet the echoed
`search_methods_used` still lists `"bfs"` — the echo reflects raw request
flags, not post-resolution methods. -/
theorem methods_used_raw_flags_counterexample :
    searchMethodsUsed communityOnlyBfsRequest = ["bm25", "bfs"] ∧
    (buildSearchConfig communityOnlyBfsRequest).community_config =
      some { search_methods := [CommunitySearchMethod.bm25],
             reranker := CommunityReranker.rrf, mmr_lambda := 1/2 } ∧
    (buildSearchConfig communityOnlyBfsRequest).edge_config = none ∧
    (buildSearchConfig communityOnlyBfsRequest).node_config = none ∧
    (buildSearchConfig communityOnlyBfsRequest).episode_config = none ∧
    "bfs" ∈ searchMethodsUsed communityOnlyBfsRequest :=
  ⟨rfl, rfl, rfl, rfl, rfl, by decide⟩

/-- C5 amended: the echoed `search_methods_used` is a single global list
derived from the raw request flags — a method name appears in it exactly when
its flag is set, independent of the plans actually built — and the response
copies it unchanged. -/
theorem methods_used_echoes_raw_flags (req : HybridSearchRequest)
    (res : SearchResults) :
    ("bm25" ∈ searchMethodsUsed req ↔ req.use_bm25 = true) ∧
    ("vector" ∈ searchMethodsUsed req ↔ req.use_vector = true) ∧
    ("bfs" ∈ searchMethodsUsed req ↔ req.use_bfs = true) ∧
    (assembleHybridResponse req res).search_methods_used = searchMethodsUsed req := by
  refine ⟨?_, ?_, ?_, rfl⟩ <;>
    cases hb : req.use_bm25 <;> cases hv : req.use_vector <;> cases hf : req.use_bfs <;>
      simp [searchMethodsUsed, hb, hv, hf]

/-- C6 counterexample: with neither bm25 nor vector enabled the community
class's method set resolves to the empty list, yet a community search config
is still produced (with empty `search_methods`) rather than the class being
skipped. -/
theorem community_empty_plan_counterexample :
    buildCommunityMethods noMethodsRequest = [] ∧
    (buildSearchConfig noMethodsRequest).community_config =
      some { search_methods := [], reranker := CommunityReranker.rrf,
             mmr_lambda := 1/2 } :=
  ⟨rfl, rfl⟩

/-- C6 amended: edge and node classes with an empty resolved method set are
skipped (no config), but the community class is not — when requested with
both bm25 and vector off it still receives a config with an empty method
list — and the episode config is produced whenever episodes are requested,
independent of the method flags. -/
theorem empty_methods_partial_skip (req : HybridSearchRequest) :
    (buildEdgeMethods req = [] → (buildSearchConfig req).edge_config = none) ∧
    (buildNodeMethods req = [] → (buildSearchConfig req).node_config = none) ∧
    (req.search_communities = true → req.use_bm25 = false → req.use_vector = false →
      (buildSearchConfig req).community_config =
        some { search_methods := [],
               reranker := community_reranker_map req.reranker,
               mmr_lambda := req.mmr_lambda }) ∧
    (req.search_episodes = true →
      (buildSearchConfig req).episode_config = some { reranker := EpisodeReranker.rrf }) := by
  refine ⟨?_, ?_, ?_, ?_⟩
  · intro h
    simp [buildSearchConfig, h]
  · intro h
    simp [buildSearchConfig, h]
  · intro hc hb hv
    simp [buildSearchConfig, hc, buildCommunityMethods, hb, hv]
  · intro h
    simp [buildSearchConfig, h]

/-- Witness for `empty_methods_partial_skip` at the request with all method
flags off and communities and episodes requested. -/
theorem empty_methods_partial_skip_witness :
    (buildSearchConfig noMethodsRequest).edge_config = none ∧
    (buildSearchConfig noMethodsRequest).node_config = none ∧
    (buildSearchConfig noMethodsRequest).community_config =
      some { search_methods := [],
             reranker := community_reranker_map noMethodsRequest.reranker,
             mmr_lambda := noMethodsRequest.mmr_lambda } ∧
    (buildSearchConfig noMethodsRequest).episode_config =
      some { reranker := EpisodeReranker.rrf } :=
  ⟨(empty_methods_partial_skip noMethodsRequest).1 rfl,
   (empty_methods_partial_skip noMethodsRequest).2.1 rfl,
   (empty_methods_partial_skip noMethodsRequest).2.2.1 rfl rfl rfl,
   (empty_methods_partial_skip noMethodsRequest).2.2.2 rfl⟩

/-- C7 counterexample: a supplied limit of `0` is rejected by the `ge=1`
field constraint with a validation error — the request does not proceed with
the default of 10. -/
theorem limit_zero_rejected_counterexample :
    searchRequestLimit (some 0) = .error "validation error" ∧
    temporalQueryRequestLimit (some 0) = .error "validation error" ∧
    searchRequestLimit (some 0) ≠ .ok 10 :=
  ⟨rfl, rfl, by intro h; simp [searchRequestLimit, validateBoundedInt] at h⟩

/-- C7 amended: the default of 10 is used only when the limit field is
omitted; a supplied limit `≤ 0` is rejected by validation, and an in-range
supplied limit is taken as given. -/
theorem limit_validation_behaviour (l : Int) :
    searchRequestLimit none = .ok 10 ∧
    temporalQueryRequestLimit none = .ok 10 ∧
    (l ≤ 0 →
      searchRequestLimit (some l) = .error "validation error" ∧
      temporalQueryRequestLimit (some l) = .error "validation error") ∧
    (1 ≤ l → l ≤ 50 → searchRequestLimit (some l) = .ok l) := by
  refine ⟨rfl, rfl, ?_, ?_⟩
  · intro h
    constructor <;>
      simp [searchRequestLimit, temporalQueryRequestLimit, validateBoundedInt,
        show ¬(1 ≤ l) by omega]
  · intro h1 h2
    simp [searchRequestLimit, validateBoundedInt, h1, h2]

/-- Witness for `limit_validation_behaviour` at limits `0` and `7`. -/
theorem limit_validation_behaviour_witness :
    searchRequestLimit (some 0) = .error "validation error" ∧
    searchRequestLimit (some 7) = .ok 7 :=
  ⟨((limit_validation_behaviour 0).2.2.1 (by norm_num)).1,
   (limit_validation_behaviour 7).2.2.2 (by norm_num) (by norm_num)⟩

/-- C8: the response presents four separate per-class collections, each the
index-preserving image of its class's input list (classes are never
interleaved), and `total_results` is the sum of the four list lengths. -/
theorem hybrid_response_grouped_total (req : HybridSearchRequest) (res : SearchResults) :
    (assembleHybridResponse req res).total_results =
      res.edges.length + res.nodes.length + res.episodes.length + res.communities.length ∧
    (assembleHybridResponse req res).edges.length = res.edges.length ∧
    (assembleHybridResponse req res).nodes.length = res.nodes.length ∧
    (assembleHybridResponse req res).episodes.length = res.episodes.length ∧
    (assembleHybridResponse req res).communities.length = res.communities.length ∧
    (∀ i (h1 : i < (assembleHybridResponse req res).edges.length)
        (h2 : i < res.edges.length),
      (assembleHybridResponse req res).edges.get ⟨i, h1⟩ =
        edgeToSearchResult res.edge_reranker_scores i (res.edges.get ⟨i, h2⟩)) ∧
    (∀ i (h1 : i < (assembleHybridResponse req res).nodes.length)
        (h2 : i < res.nodes.length),
      (assembleHybridResponse req res).nodes.get ⟨i, h1⟩ =
        nodeToSearchResult res.node_reranker_scores i (res.nodes.get ⟨i, h2⟩)) ∧
    (∀ i (h1 : i < (assembleHybridResponse req res).episodes.length)
        (h2 : i < res.episodes.length),
      (assembleHybridResponse req res).episodes.get ⟨i, h1⟩ =
        episodeToSearchResult res.episode_reranker_scores i (res.episodes.get ⟨i, h2⟩)) ∧
    (∀ i (h1 : i < (assembleHybridResponse req res).communities.length)
        (h2 : i < res.communities.length),
      (assembleHybridResponse req res).communities.get ⟨i, h1⟩ =
        communityToSearchResult res.community_reranker_scores i
          (res.communities.get ⟨i, h2⟩)) := by
  refine ⟨?_, ?_, ?_, ?_, ?_, ?_, ?_, ?_, ?_⟩
  · simp [assembleHybridResponse, edgeResults, nodeResults, episodeResults,
      communityResults, length_enumMap]
  · simp [assembleHybridResponse, edgeResults, length_enumMap]
  · simp [assembleHybridResponse, nodeResults, length_enumMap]
  · simp [assembleHybridResponse, episodeResults, length_enumMap]
  · simp [assembleHybridResponse, communityResults, length_enumMap]
  · intro i h1 h2
    have := get_enumMap (edgeToSearchResult res.edge_reranker_scores) 0 i res.edges h2
    simpa [assembleHybridResponse, edgeResults] using this
  · intro i h1 h2
    have := get_enumMap (nodeToSearchResult res.node_reranker_scores) 0 i res.nodes h2
    simpa [assembleHybridResponse, nodeResults] using this
  · intro i h1 h2
    have := get_enumMap (episodeToSearchResult res.episode_reranker_scores) 0 i
      res.episodes h2
    simpa [assembleHybridResponse, episodeResults] using this
  · intro i h1 h2
    have := get_enumMap (communityToSearchResult res.community_reranker_scores) 0 i
      res.communities h2
    simpa [assembleHybridResponse, communityResults] using this

/-- Witness for `hybrid_response_grouped_total` at a two-edge search outcome. -/
theorem hybrid_response_grouped_total_witness :
    (assembleHybridResponse allClassesBfsRequest twoEdgeResults).total_results = 2 ∧
    (assembleHybridResponse allClassesBfsRequest twoEdgeResults).edges.get
        ⟨0, by simp [assembleHybridResponse, edgeResults, length_enumMap, twoEdgeResults]⟩ =
      edgeToSearchResult twoEdgeResults.edge_reranker_scores 0
        (twoEdgeResults.edges.get ⟨0, by simp [twoEdgeResults]⟩) :=
  ⟨by
     have := (hybrid_response_grouped_total allClassesBfsRequest twoEdgeResults).1
     simpa [twoEdgeResults] using this,
   (hybrid_response_grouped_total allClassesBfsRequest twoEdgeResults).2.2.2.2.2.1 0
     (by simp [assembleHybridResponse, edgeResults, length_enumMap, twoEdgeResults])
     (by simp [twoEdgeResults])⟩

/-- C9: for every class the attached score is the reranker-score list entry
at the same index when that index is in bounds, and exactly `1` when the
score list is shorter; the access is guarded and total. -/
theorem hybrid_score_attachment (res : SearchResults) (scores : List Rat) (i : Nat) :
    (∀ h : i < scores.length, scoreAt scores i = scores.get ⟨i, h⟩) ∧
    (scores.length ≤ i → scoreAt scores i = 1) ∧
    (∀ h1 : i < (edgeResults res).length,
      ((edgeResults res).get ⟨i, h1⟩).score = scoreAt res.edge_reranker_scores i) ∧
    (∀ h1 : i < (nodeResults res).length,
      ((nodeResults res).get ⟨i, h1⟩).score = scoreAt res.node_reranker_scores i) ∧
    (∀ h1 : i < (episodeResults res).length,
      ((episodeResults res).get ⟨i, h1⟩).score = scoreAt res.episode_reranker_scores i) ∧
    (∀ h1 : i < (communityResults res).length,
      ((communityResults res).get ⟨i, h1⟩).score = scoreAt res.community_reranker_scores i) := by
  refine ⟨?_, ?_, ?_, ?_, ?_, ?_⟩
  · intro h
    simp [scoreAt, h]
  · intro h
    simp [scoreAt, Nat.not_lt.mpr h]
  · intro h1
    have h2 : i < res.edges.length := by
      simpa [edgeResults, length_enumMap] using h1
    calc ((edgeResults res).get ⟨i, h1⟩).score
        = (edgeToSearchResult res.edge_reranker_scores (0 + i)
            (res.edges.get ⟨i, h2⟩)).score :=
          congrArg SearchResult.score
            (get_enumMap (edgeToSearchResult res.edge_reranker_scores) 0 i res.edges h2)
      _ = scoreAt res.edge_reranker_scores i := by simp [edgeToSearchResult]
  · intro h1
    have h2 : i < res.nodes.length := by
      simpa [nodeResults, length_enumMap] using h1
    calc ((nodeResults res).get ⟨i, h1⟩).score
        = (nodeToSearchResult res.node_reranker_scores (0 + i)
            (res.nodes.get ⟨i, h2⟩)).score :=
          congrArg SearchResult.score
            (get_enumMap (nodeToSearchResult res.node_reranker_scores) 0 i res.nodes h2)
      _ = scoreAt res.node_reranker_scores i := by simp [nodeToSearchResult]
  · intro h1
    have h2 : i < res.episodes.length := by
      simpa [episodeResults, length_enumMap] using h1
    calc ((episodeResults res).get ⟨i, h1⟩).score
        = (episodeToSearchResult res.episode_reranker_scores (0 + i)
            (res.episodes.get ⟨i, h2⟩)).score :=
          congrArg SearchResult.score
            (get_enumMap (episodeToSearchResult res.episode_reranker_scores) 0 i
              res.episodes h2)
      _ = scoreAt res.episode_reranker_scores i := by simp [episodeToSearchResult]
  · intro h1
    have h2 : i < res.communities.length := by
      simpa [communityResults, length_enumMap] using h1
    calc ((communityResults res).get ⟨i, h1⟩).score
        = (communityToSearchResult res.community_reranker_scores (0 + i)
            (res.communities.get ⟨i, h2⟩)).score :=
          congrArg SearchResult.score
            (get_enumMap (communityToSearchResult res.community_reranker_scores) 0 i
              res.communities h2)
      _ = scoreAt res.community_reranker_scores i := by simp [communityToSearchResult]

/-- Witness for `hybrid_score_attachment` at the two-edge outcome with one
score: index 0 takes the listed score, index 1 the default `1`. -/
theorem hybrid_score_attachment_witness :
    scoreAt twoEdgeResults.edge_reranker_scores 0 =
      twoEdgeResults.edge_reranker_scores.get ⟨0, by simp [twoEdgeResults]⟩ ∧
    scoreAt twoEdgeResults.edge_reranker_scores 1 = 1 ∧
    ((edgeResults twoEdgeResults).get
        ⟨1, by simp [edgeResults, length_enumMap, twoEdgeResults]⟩).score =
      scoreAt twoEdgeResults.edge_reranker_scores 1 :=
  ⟨(hybrid_score_attachment twoEdgeResults twoEdgeResults.edge_reranker_scores 0).1
     (by simp [twoEdgeResults]),
   (hybrid_score_attachment twoEdgeResults twoEdgeResults.edge_reranker_scores 1).2.1
     (by simp [twoEdgeResults]),
   (hybrid_score_attachment twoEdgeResults twoEdgeResults.edge_reranker_scores 1).2.2.1
     (by simp [edgeResults, length_enumMap, twoEdgeResults])⟩

/-- C10: whenever the Graphiti client is obtained, the `/graph` endpoint
returns a response with empty node and edge lists regardless of the supplied
`group_id`: the Cypher query strings are constructed but never executed. -/
theorem get_graph_returns_empty (req : GetGraphRequest) :
    getGraphEndpoint true req = .ok { nodes := [], edges := [] } := rfl

end Kanbu
